import Mathlib

/-!
Verification of the tmt-cli test-generation and invocation pipeline.

The definitions below are shallow embeddings of the Python sources under
src/: enums become inductives, dataclasses become structures, and the
stage functions become pure Lean functions over explicit views of the
child-process state (CPU time, RSS, exit status), of captured files and
of the configuration flags.  Where a module of the repository is
referenced by the code under src/ but its file is not part of src/, the
definition is modelled from the specification and carries a doc comment
saying so.
-/

namespace TMT

/-- Execution outcome of one pipeline stage.  Members SUCCESS, CRASHED,
FAILED, TIMEDOUT and SKIPPED are from src/internal/outcome.py
(class ExecutionOutcome).  Modelled from the spec: the members
SKIPPED_SUCCESS (spec section 4.7, "deliberately not run and considered
fine") and UNKNOWN (the unset sentinel used by src/tests/test_gen.py) are
referenced by src/internal/commands/gen.py, src/internal/steps/generation.py
and src/tests/test_gen.py but the outcome module revision defining them is
not under src/. -/
inductive ExecutionOutcome
  | SUCCESS
  | CRASHED
  | FAILED
  | TIMEDOUT
  | SKIPPED
  | SKIPPED_SUCCESS
  | UNKNOWN
deriving DecidableEq, Repr

/-- Per-test result of the generation pipeline.  Modelled from the spec:
the class GenerationResult (spec section 3: four verdict slots, a reason
string and is_output_forced) is used throughout src/internal but its
defining outcome-module revision is not under src/.  Field defaults follow
src/tests/test_gen.py, where a fresh GenerationResult has all four verdict
slots equal to the UNKNOWN sentinel. -/
structure GenerationResult where
  input_generation : ExecutionOutcome := ExecutionOutcome.UNKNOWN
  input_validation : ExecutionOutcome := ExecutionOutcome.UNKNOWN
  output_generation : ExecutionOutcome := ExecutionOutcome.UNKNOWN
  output_validation : ExecutionOutcome := ExecutionOutcome.UNKNOWN
  reason : String := ""
  is_output_forced : Bool := false
deriving DecidableEq, Repr

/-- The GenerationResult produced by GenerationStep.run_generator
(src/internal/steps/generation.py, lines 52-229): input_generation is
always set (to SUCCESS, TIMEDOUT, CRASHED or FAILED), is_output_forced is
set in the manual-with-forced-output branch, and output_generation is set
to SKIPPED_SUCCESS exactly when the generator chain left a canonical
output file in the sandbox (generates_output). -/
def runGeneratorResult (input_generation : ExecutionOutcome) (reason : String)
    (is_output_forced : Bool) (generates_output : Bool) : GenerationResult :=
  { input_generation := input_generation
    reason := reason
    is_output_forced := is_output_forced
    output_generation :=
      if generates_output then ExecutionOutcome.SKIPPED_SUCCESS
      else ExecutionOutcome.UNKNOWN }

def genValidationPhase (res : GenerationResult)
    (valOut : ExecutionOutcome) (valReason : Option String) : GenerationResult :=
  if res.input_generation ≠ ExecutionOutcome.SUCCESS then
    { res with input_validation := ExecutionOutcome.SKIPPED }
  else
    { res with input_validation := valOut, reason := valReason.getD res.reason }

def genSolutionPhase (r1 : GenerationResult)
    (solOut : ExecutionOutcome) (solReason : String) : GenerationResult :=
  if r1.input_validation ≠ ExecutionOutcome.SUCCESS then
    { r1 with output_generation := ExecutionOutcome.SKIPPED }
  else if r1.output_generation = ExecutionOutcome.SKIPPED_SUCCESS then
    r1
  else
    { r1 with output_generation := solOut, reason := solReason }

def genCheckerPhase (runChecker checkForced checkGenerated : Bool)
    (r2 : GenerationResult)
    (chkOut : ExecutionOutcome) (chkReason : String) : GenerationResult :=
  if runChecker then
    if r2.output_generation ∉
        [ExecutionOutcome.SUCCESS, ExecutionOutcome.SKIPPED_SUCCESS] ∨
       r2.input_validation ∉
        [ExecutionOutcome.SUCCESS, ExecutionOutcome.SKIPPED_SUCCESS] then
      { r2 with output_validation := ExecutionOutcome.SKIPPED }
    else if (r2.is_output_forced ∧ ¬ checkForced) ∨
            (¬ r2.is_output_forced ∧ ¬ checkGenerated) then
      { r2 with output_validation := ExecutionOutcome.SKIPPED_SUCCESS }
    else
      { r2 with output_validation := chkOut, reason := chkReason }
  else
    { r2 with output_validation := ExecutionOutcome.SKIPPED_SUCCESS }

def genPipeline (runChecker checkForced checkGenerated : Bool)
    (res : GenerationResult)
    (valOut : ExecutionOutcome) (valReason : Option String)
    (solOut : ExecutionOutcome) (solReason : String)
    (chkOut : ExecutionOutcome) (chkReason : String) : GenerationResult :=
  genCheckerPhase runChecker checkForced checkGenerated
    (genSolutionPhase (genValidationPhase res valOut valReason) solOut solReason)
    chkOut chkReason

def claimWellFormed (r : GenerationResult) : Prop :=
  (r.input_generation ≠ ExecutionOutcome.SUCCESS →
     r.input_validation = ExecutionOutcome.SKIPPED ∧
     r.output_generation = ExecutionOutcome.SKIPPED ∧
     r.output_validation = ExecutionOutcome.SKIPPED) ∧
  (r.input_validation ≠ ExecutionOutcome.SUCCESS →
     r.output_generation = ExecutionOutcome.SKIPPED) ∧
  ((r.output_generation ∉
      [ExecutionOutcome.SUCCESS, ExecutionOutcome.SKIPPED_SUCCESS] ∨
    r.input_validation ∉
      [ExecutionOutcome.SUCCESS, ExecutionOutcome.SKIPPED_SUCCESS]) →
     r.output_validation = ExecutionOutcome.SKIPPED)

-- phase lemmas
theorem genValidationPhase_input_generation (res : GenerationResult)
    (v : ExecutionOutcome) (s : Option String) :
    (genValidationPhase res v s).input_generation = res.input_generation := by
  unfold genValidationPhase; split <;> rfl

theorem genValidationPhase_output_generation (res : GenerationResult)
    (v : ExecutionOutcome) (s : Option String) :
    (genValidationPhase res v s).output_generation = res.output_generation := by
  unfold genValidationPhase; split <;> rfl

theorem genValidationPhase_skip (res : GenerationResult)
    (v : ExecutionOutcome) (s : Option String)
    (h : res.input_generation ≠ ExecutionOutcome.SUCCESS) :
    (genValidationPhase res v s).input_validation = ExecutionOutcome.SKIPPED := by
  unfold genValidationPhase
  rw [if_pos h]

theorem genSolutionPhase_input_generation (r : GenerationResult)
    (v : ExecutionOutcome) (s : String) :
    (genSolutionPhase r v s).input_generation = r.input_generation := by
  unfold genSolutionPhase; split <;> [rfl; (split <;> rfl)]

theorem genSolutionPhase_input_validation (r : GenerationResult)
    (v : ExecutionOutcome) (s : String) :
    (genSolutionPhase r v s).input_validation = r.input_validation := by
  unfold genSolutionPhase; split <;> [rfl; (split <;> rfl)]

theorem genSolutionPhase_skip (r : GenerationResult)
    (v : ExecutionOutcome) (s : String)
    (h : r.input_validation ≠ ExecutionOutcome.SUCCESS) :
    (genSolutionPhase r v s).output_generation = ExecutionOutcome.SKIPPED := by
  unfold genSolutionPhase
  rw [if_pos h]

theorem genCheckerPhase_keeps (rc cf cg : Bool) (r : GenerationResult)
    (v : ExecutionOutcome) (s : String) :
    (genCheckerPhase rc cf cg r v s).input_generation = r.input_generation ∧
    (genCheckerPhase rc cf cg r v s).input_validation = r.input_validation ∧
    (genCheckerPhase rc cf cg r v s).output_generation = r.output_generation := by
  unfold genCheckerPhase
  split <;> [skip; exact ⟨rfl, rfl, rfl⟩]
  split <;> [exact ⟨rfl, rfl, rfl⟩; split <;> exact ⟨rfl, rfl, rfl⟩]

theorem genCheckerPhase_skip (cf cg : Bool) (r : GenerationResult)
    (v : ExecutionOutcome) (s : String)
    (h : r.output_generation ∉
        [ExecutionOutcome.SUCCESS, ExecutionOutcome.SKIPPED_SUCCESS] ∨
      r.input_validation ∉
        [ExecutionOutcome.SUCCESS, ExecutionOutcome.SKIPPED_SUCCESS]) :
    (genCheckerPhase true cf cg r v s).output_validation =
      ExecutionOutcome.SKIPPED := by
  unfold genCheckerPhase
  rw [if_pos rfl, if_pos h]

theorem genCheckerPhase_noChecker (cf cg : Bool) (r : GenerationResult)
    (v : ExecutionOutcome) (s : String) :
    (genCheckerPhase false cf cg r v s).output_validation =
      ExecutionOutcome.SKIPPED_SUCCESS := by
  unfold genCheckerPhase
  simp

theorem c1_counterexample :
    ¬ claimWellFormed (genPipeline false false false
        (runGeneratorResult ExecutionOutcome.CRASHED "generator crashed" false false)
        ExecutionOutcome.SUCCESS none ExecutionOutcome.SUCCESS ""
        ExecutionOutcome.SUCCESS "") := by
  unfold claimWellFormed genPipeline genCheckerPhase genSolutionPhase
    genValidationPhase runGeneratorResult
  decide

theorem c1_genPipeline_wellFormed
    (runChecker checkForced checkGenerated : Bool)
    (ig : ExecutionOutcome) (rs : String) (forced go : Bool)
    (valOut : ExecutionOutcome) (valReason : Option String)
    (solOut : ExecutionOutcome) (solReason : String)
    (chkOut : ExecutionOutcome) (chkReason : String) :
    let r := genPipeline runChecker checkForced checkGenerated
      (runGeneratorResult ig rs forced go)
      valOut valReason solOut solReason chkOut chkReason
    (r.input_generation ≠ ExecutionOutcome.SUCCESS →
       r.input_validation = ExecutionOutcome.SKIPPED ∧
       r.output_generation = ExecutionOutcome.SKIPPED) ∧
    (r.input_validation ≠ ExecutionOutcome.SUCCESS →
       r.output_generation = ExecutionOutcome.SKIPPED) ∧
    (runChecker = true → claimWellFormed r) ∧
    (runChecker = false →
       r.output_validation = ExecutionOutcome.SKIPPED_SUCCESS) := by
  intro r
  set res := runGeneratorResult ig rs forced go with hres
  set r1 := genValidationPhase res valOut valReason with hr1
  set r2 := genSolutionPhase r1 solOut solReason with hr2
  have hrdef : r = genCheckerPhase runChecker checkForced checkGenerated r2
      chkOut chkReason := rfl
  obtain ⟨k1, k2, k3⟩ := genCheckerPhase_keeps runChecker checkForced
    checkGenerated r2 chkOut chkReason
  rw [← hrdef] at k1 k2 k3
  have hig : r.input_generation = ig := by
    rw [k1, hr2, genSolutionPhase_input_generation, hr1,
      genValidationPhase_input_generation, hres]
    rfl
  have hiv : r.input_validation = r1.input_validation := by
    rw [k2, hr2, genSolutionPhase_input_validation]
  refine ⟨?_, ?_, ?_, ?_⟩
  · intro h
    rw [hig] at h
    have h1 : r1.input_validation = ExecutionOutcome.SKIPPED := by
      rw [hr1]; exact genValidationPhase_skip res valOut valReason h
    have h2 : r2.output_generation = ExecutionOutcome.SKIPPED := by
      rw [hr2]
      refine genSolutionPhase_skip r1 solOut solReason ?_
      rw [h1]; decide
    exact ⟨by rw [hiv, h1], by rw [k3, h2]⟩
  · intro h
    rw [hiv] at h
    rw [k3, hr2]
    exact genSolutionPhase_skip r1 solOut solReason h
  · rintro rfl
    refine ⟨?_, ?_, ?_⟩
    · intro h
      rw [hig] at h
      have h1 : r1.input_validation = ExecutionOutcome.SKIPPED := by
        rw [hr1]; exact genValidationPhase_skip res valOut valReason h
      have h2 : r2.output_generation = ExecutionOutcome.SKIPPED := by
        rw [hr2]
        refine genSolutionPhase_skip r1 solOut solReason ?_
        rw [h1]; decide
      refine ⟨by rw [hiv, h1], by rw [k3, h2], ?_⟩
      rw [hrdef]
      refine genCheckerPhase_skip checkForced checkGenerated r2 chkOut chkReason ?_
      left; rw [h2]; decide
    · intro h
      rw [hiv] at h
      rw [k3, hr2]
      exact genSolutionPhase_skip r1 solOut solReason h
    · intro h
      rw [k3, k2] at h
      rw [hrdef]
      exact genCheckerPhase_skip checkForced checkGenerated r2 chkOut chkReason h
  · rintro rfl
    rw [hrdef]
    exact genCheckerPhase_noChecker checkForced checkGenerated r2 chkOut chkReason

/-- C1 witness: with a checker configured, a timed-out generator yields a
tuple satisfying the well-formedness rules; without a checker, a clean run
ends with output_validation = SKIPPED_SUCCESS. -/
theorem c1_witness :
    claimWellFormed (genPipeline true true true
      (runGeneratorResult ExecutionOutcome.TIMEDOUT "generator slow" false
        false)
      ExecutionOutcome.SUCCESS none ExecutionOutcome.SUCCESS ""
      ExecutionOutcome.SUCCESS "") ∧
    (genPipeline false true true
      (runGeneratorResult ExecutionOutcome.SUCCESS "" false false)
      ExecutionOutcome.SUCCESS none ExecutionOutcome.SUCCESS ""
      ExecutionOutcome.SUCCESS "").output_validation
      = ExecutionOutcome.SKIPPED_SUCCESS := by
  constructor
  · exact (c1_genPipeline_wellFormed true true true
      ExecutionOutcome.TIMEDOUT "generator slow" false false
      ExecutionOutcome.SUCCESS none ExecutionOutcome.SUCCESS ""
      ExecutionOutcome.SUCCESS "").2.2.1 rfl
  · exact (c1_genPipeline_wellFormed false true true
      ExecutionOutcome.SUCCESS "" false false
      ExecutionOutcome.SUCCESS none ExecutionOutcome.SUCCESS ""
      ExecutionOutcome.SUCCESS "").2.2.2 rfl

/-! ## Process sandbox (src/internal/runner.py) -/

/-- POSIX wait-status macros as implemented by glibc on Linux; these are
the semantics of os.WIFEXITED, os.WEXITSTATUS, os.WIFSIGNALED and
os.WTERMSIG called by src/internal/runner.py.  A normal exit has the low
seven bits zero; a signalled termination has them equal to the signal
number (never 0 and never 0x7f, which marks a stopped child). -/
def wifexited (status : ℕ) : Bool := status % 128 == 0

def wexitstatus (status : ℕ) : ℕ := status / 256 % 256

def wifsignaled (status : ℕ) : Bool := status % 128 != 0 && status % 128 != 127

def wtermsig (status : ℕ) : ℕ := status % 128

/-- The reaped state of a sandboxed child, as recorded by class Process of
src/internal/runner.py after post_wait: the time limit passed to
__init__, cpu_time_sec (= ru_utime + ru_stime), wall_clock_time_sec
(= poll_time - popen_time), max_rss_kib, and the raw wait status.  Times
are embedded as rationals. -/
structure Process where
  time_limit_sec : ℚ
  cpu_time_sec : ℚ
  wall_clock_time_sec : ℚ
  max_rss_kib : ℤ
  status : ℕ
deriving DecidableEq, Repr

/-- Process.exit_signal, src/internal/runner.py lines 171-173. -/
def Process.exit_signal (p : Process) : ℕ :=
  if wifsignaled p.status then wtermsig p.status else 0

/-- Process.exit_code, src/internal/runner.py lines 175-177. -/
def Process.exit_code (p : Process) : ℕ :=
  if wifexited p.status then wexitstatus p.status else 0

/-- Process.is_signaled_exit, src/internal/runner.py lines 179-181. -/
def Process.is_signaled_exit (p : Process) : Bool := wifsignaled p.status

/-- Process.is_cpu_timedout, src/internal/runner.py lines 183-185. -/
def Process.is_cpu_timedout (p : Process) : Bool :=
  decide (p.cpu_time_sec > p.time_limit_sec)

/-- Process.is_wall_clock_timedout, src/internal/runner.py lines 187-189. -/
def Process.is_wall_clock_timedout (p : Process) : Bool :=
  decide (p.wall_clock_time_sec > p.time_limit_sec)

/-- Process.is_timedout, src/internal/runner.py lines 191-193. -/
def Process.is_timedout (p : Process) : Bool :=
  p.is_cpu_timedout || p.is_wall_clock_timedout

/-- C8: the exit_code property is the wait-status exit code when the child
exited normally and 0 when it was terminated by a signal; exit_signal is
the terminating signal when signalled and 0 otherwise; exit_code = 0 does
not imply a successful normal exit (witness: wait status 9, SIGKILL), and
at most one of exit_code and exit_signal is non-zero for any wait
status. -/
theorem c8_exit_code_exit_signal (p : Process) :
    (wifexited p.status = true → p.exit_code = wexitstatus p.status) ∧
    (wifsignaled p.status = true →
       p.exit_signal = wtermsig p.status ∧ p.exit_code = 0) ∧
    (wifsignaled p.status = false → p.exit_signal = 0) ∧
    ¬ (p.exit_code ≠ 0 ∧ p.exit_signal ≠ 0) ∧
    (∃ q : Process, q.exit_code = 0 ∧ q.is_signaled_exit = true) := by
  have hmutex : wifsignaled p.status = true → wifexited p.status = false := by
    intro h
    unfold wifsignaled at h
    unfold wifexited
    simp only [Bool.and_eq_true, bne_iff_ne, ne_eq] at h
    simp [h.1]
  refine ⟨?_, ?_, ?_, ?_, ?_⟩
  · intro h
    unfold Process.exit_code
    rw [if_pos h]
  · intro h
    refine ⟨?_, ?_⟩
    · unfold Process.exit_signal
      rw [if_pos h]
    · unfold Process.exit_code
      rw [if_neg]
      simp [hmutex h]
  · intro h
    unfold Process.exit_signal
    rw [if_neg]
    simp [h]
  · rintro ⟨h1, h2⟩
    unfold Process.exit_code at h1
    unfold Process.exit_signal at h2
    by_cases hx : wifexited p.status = true
    · have hs : wifsignaled p.status = false := by
        unfold wifexited at hx
        unfold wifsignaled
        simp only [beq_iff_eq] at hx
        simp [hx]
      rw [if_neg (by simp [hs])] at h2
      exact h2 rfl
    · rw [if_neg hx] at h1
      exact h1 rfl
  · refine ⟨{ time_limit_sec := 1, cpu_time_sec := 0, wall_clock_time_sec := 0,
              max_rss_kib := 0, status := 9 }, ?_, ?_⟩ <;> decide

/-- C8 witness: concrete wait statuses.  2304 = 9 * 256 is a normal exit
with code 9; 11 is death by SIGSEGV, whose exit_code is 0 although the
run was not successful. -/
theorem c8_witness :
    ({ time_limit_sec := 1, cpu_time_sec := 0, wall_clock_time_sec := 0,
       max_rss_kib := 0, status := 2304 } : Process).exit_code = 9 ∧
    ({ time_limit_sec := 1, cpu_time_sec := 0, wall_clock_time_sec := 0,
       max_rss_kib := 0, status := 11 } : Process).exit_signal = 11 ∧
    ({ time_limit_sec := 1, cpu_time_sec := 0, wall_clock_time_sec := 0,
       max_rss_kib := 0, status := 11 } : Process).exit_code = 0 := by
  refine ⟨?_, ?_, ?_⟩
  · exact ((c8_exit_code_exit_signal _).1 (by decide)).trans (by decide)
  · exact (((c8_exit_code_exit_signal _).2.1 (by decide)).1).trans (by decide)
  · exact ((c8_exit_code_exit_signal
      { time_limit_sec := 1, cpu_time_sec := 0, wall_clock_time_sec := 0,
        max_rss_kib := 0, status := 11 }).2.1 (by decide)).2

/-! ## The wall-clock watchdog timer (claim C2) -/

/-- Python threading.Timer as used by src/internal/runner.py line 59: the
constructor records the interval and the callback but does not start the
timer thread; only an explicit Timer.start() arms it, and Timer.cancel()
disarms it.  The callback of a timer that is never started never runs. -/
structure PyTimer where
  interval_sec : ℚ
  started : Bool
  cancelled : Bool
deriving DecidableEq, Repr

/-- Timer construction (threading.Timer.__init__): not started. -/
def PyTimer.new (interval_sec : ℚ) : PyTimer :=
  { interval_sec := interval_sec, started := false, cancelled := false }

/-- A timer eventually fires its callback iff it was started and not
cancelled before the interval elapsed. -/
def PyTimer.everFires (t : PyTimer) : Bool := t.started && !t.cancelled

/-- The timer methods invoked anywhere in src/internal/runner.py on
self.timer: only cancel (lines 131 and 139, in safe_kill and post_wait).
No call of self.timer.start() exists in the module (or anywhere under
src/). -/
inductive RunnerTimerOp
  | cancel
deriving DecidableEq, Repr

def applyTimerOp (t : PyTimer) : RunnerTimerOp → PyTimer
  | RunnerTimerOp.cancel => { t with cancelled := true }

/-- The state Process.__init__ (src/internal/runner.py lines 54-62) leaves
behind: the wall-clock deadline time_limit_sec + 1.0 and the newly
constructed (unstarted) Timer with callback timer_kill. -/
def processInitTimer (time_limit_sec : ℚ) : PyTimer :=
  let wall_time_limit_sec : ℚ := time_limit_sec + 1
  PyTimer.new wall_time_limit_sec

/-- C2 (code evaluation): the watchdog Timer is created with the correct
interval time_limit + 1.0, but it is never started: directly after
__init__ and after any sequence of the timer operations the runner module
performs during the process lifetime, the timer remains unstarted, hence
its SIGKILL callback timer_kill never fires.  This contradicts the claim
that the watchdog is armed when the child is spawned. -/
theorem c2_watchdog_never_armed (time_limit_sec : ℚ) (ops : List RunnerTimerOp) :
    (processInitTimer time_limit_sec).interval_sec = time_limit_sec + 1 ∧
    (processInitTimer time_limit_sec).started = false ∧
    (List.foldl applyTimerOp (processInitTimer time_limit_sec) ops).everFires
      = false := by
  refine ⟨rfl, rfl, ?_⟩
  have key : ∀ (ops : List RunnerTimerOp) (t : PyTimer), t.started = false →
      (List.foldl applyTimerOp t ops).started = false := by
    intro ops
    induction ops with
    | nil => intro t ht; exact ht
    | cons op rest ih =>
      intro t ht
      cases op
      exact ih _ ht
  unfold PyTimer.everFires
  rw [key ops _ rfl]
  rfl

/-! ## Evaluation outcomes (src/internal/outcome.py) -/

/-- EvaluationOutcome, src/internal/outcome.py lines 9-48. -/
inductive EvaluationOutcome
  | RUN_SUCCESS
  | ACCEPTED
  | PARTIAL
  | WRONG
  | NO_FILE
  | NO_OUTPUT
  | TIMEOUT
  | TIMEOUT_WALL
  | OUTPUT_LIMIT
  | RUNERROR_OUTPUT
  | RUNERROR_SIGNAL
  | RUNERROR_MEMORY
  | RUNERROR_EXITCODE
  | MANAGER_CRASHED
  | MANAGER_TIMEOUT
  | CHECKER_CRASHED
  | CHECKER_FAILED
  | CHECKER_TIMEDOUT
  | INTERNAL_ERROR
deriving DecidableEq, Repr

/-- EvaluationResult, src/internal/outcome.py lines 51-64, with the
dataclass defaults. -/
structure EvaluationResult where
  verdict : EvaluationOutcome := EvaluationOutcome.RUN_SUCCESS
  solution_cpu_time_sec : ℚ := 0
  solution_wall_clock_time_sec : ℚ := 0
  solution_max_memory_kib : ℤ := 0
  solution_exit_code : ℕ := 0
  solution_exit_signal : ℕ := 0
  output_file : Option String := none
  checker_run : Bool := false
  checker_reason : String := ""
deriving DecidableEq, Repr

/-- EvaluationResult.fill_from_solution_process, src/internal/outcome.py
lines 66-73. -/
def EvaluationResult.fill_from_solution_process (r : EvaluationResult)
    (solution : Process) : EvaluationResult :=
  { r with
    solution_cpu_time_sec := solution.cpu_time_sec
    solution_wall_clock_time_sec := solution.wall_clock_time_sec
    solution_max_memory_kib := solution.max_rss_kib
    solution_exit_code := solution.exit_code
    solution_exit_signal := solution.exit_signal }

/-- signal.SIGXCPU on Linux. -/
def SIGXCPU : ℕ := 24

/-- signal.SIGXFSZ on Linux. -/
def SIGXFSZ : ℕ := 25

/-! ## Solution verdict resolution (claims C3 and C4) -/

/-- Modelled from the spec: SolutionStep.is_solution_abormal_exit.  The
method is called by src/internal/steps/solution/batch.py line 142,
src/internal/steps/solution/interactive_icpc.py line 229 and
src/internal/steps/interactor.py line 199, but its defining module
internal/steps/solution/base.py is not under src/.  Modelled from the
verdict-resolution table of spec section 4.6, steps 1-7 (step 8 is the
"no abnormal exit" case): memory first, then CPU timeout, wall-clock
timeout, SIGXFSZ, SIGXCPU, any other signal, then non-zero exit code.
Max RSS (KiB) is compared against the configured memory limit (MiB).
Returns whether an abnormal exit was detected together with the updated
record. -/
def is_solution_abormal_exit (memory_limit_mib : ℤ) (time_limit_sec : ℚ)
    (solution : Process) (result : EvaluationResult) :
    Bool × EvaluationResult :=
  if solution.max_rss_kib > memory_limit_mib * 1024 then
    (true, { result with verdict := EvaluationOutcome.RUNERROR_MEMORY })
  else if solution.cpu_time_sec > time_limit_sec then
    (true, { result with verdict := EvaluationOutcome.TIMEOUT })
  else if solution.wall_clock_time_sec > time_limit_sec then
    (true, { result with verdict := EvaluationOutcome.TIMEOUT_WALL })
  else if solution.exit_signal = SIGXFSZ then
    (true, { result with verdict := EvaluationOutcome.OUTPUT_LIMIT })
  else if solution.exit_signal = SIGXCPU then
    (true, { result with verdict := EvaluationOutcome.TIMEOUT })
  else if solution.exit_signal ≠ 0 then
    (true, { result with verdict := EvaluationOutcome.RUNERROR_SIGNAL,
                         checker_reason := "Execution killed by signal" })
  else if solution.exit_code ≠ 0 then
    (true, { result with verdict := EvaluationOutcome.RUNERROR_EXITCODE,
                         checker_reason := "Execution exited with exit code" })
  else
    (false, result)

/-- BatchSolutionStep.run_solution, verdict-resolution part,
src/internal/steps/solution/batch.py lines 134-145: verdict starts at
RUN_SUCCESS, output_file is the sandbox output when invoking (None during
generation), NO_FILE takes precedence when generation saw no output file,
otherwise the abnormal-exit chain decides. -/
def batchRunSolutionResult (is_generation no_output_file : Bool)
    (sandbox_output_file : String)
    (memory_limit_mib : ℤ) (time_limit_sec : ℚ)
    (solution : Process) : EvaluationResult :=
  let result : EvaluationResult :=
    { verdict := EvaluationOutcome.RUN_SUCCESS
      output_file := if ¬ is_generation then some sandbox_output_file else none }
  let result := result.fill_from_solution_process solution
  if no_output_file then
    { result with verdict := EvaluationOutcome.NO_FILE }
  else
    (is_solution_abormal_exit memory_limit_mib time_limit_sec solution result).2

/-- InteractorStep.run_solution, verdict-resolution part,
src/internal/steps/interactor.py lines 188-217: interactor timeout, then
interactor signal, then the solution abnormal-exit chain, then interactor
exit code 42 versus anything else; in the WRONG branch the first line of
judgemessage.txt from the feedback directory (when the file exists,
already stripped) becomes checker_reason. -/
def interactorRunSolutionResult (interactor : Process)
    (memory_limit_mib : ℤ) (time_limit_sec : ℚ) (solution : Process)
    (judgemessageFirstLine : Option String) : EvaluationResult :=
  let result : EvaluationResult :=
    { verdict := EvaluationOutcome.RUN_SUCCESS, output_file := none }
  let result := result.fill_from_solution_process solution
  if interactor.is_timedout then
    { result with verdict := EvaluationOutcome.CHECKER_TIMEDOUT }
  else if interactor.is_signaled_exit then
    { result with verdict := EvaluationOutcome.CHECKER_CRASHED }
  else
    let ab := is_solution_abormal_exit memory_limit_mib time_limit_sec
      solution result
    if ab.1 then
      ab.2
    else if interactor.exit_code = 42 then
      { ab.2 with verdict := EvaluationOutcome.ACCEPTED }
    else
      match judgemessageFirstLine with
      | some line =>
          { ab.2 with verdict := EvaluationOutcome.WRONG,
                      checker_reason := line }
      | none => { ab.2 with verdict := EvaluationOutcome.WRONG }

/-- The solution run passed every check of the abnormal-exit chain (the
"exited normally" case of spec section 4.6, step 8). -/
def solutionNormalExit (memory_limit_mib : ℤ) (time_limit_sec : ℚ)
    (solution : Process) : Prop :=
  (is_solution_abormal_exit memory_limit_mib time_limit_sec solution {}).1
    = false

theorem abnormal_fst_congr (m : ℤ) (t : ℚ) (s : Process)
    (r r' : EvaluationResult) :
    (is_solution_abormal_exit m t s r).1 =
    (is_solution_abormal_exit m t s r').1 := by
  unfold is_solution_abormal_exit
  split_ifs <;> rfl

theorem abnormal_false_eq (m : ℤ) (t : ℚ) (s : Process)
    (r : EvaluationResult)
    (h : (is_solution_abormal_exit m t s r).1 = false) :
    (is_solution_abormal_exit m t s r).2 = r := by
  unfold is_solution_abormal_exit at h ⊢
  split_ifs at h ⊢
  simp_all

/-- C3: in both the batch and the interactive verdict resolution (after
the NO_FILE guard in the generation case and the interactor-health checks
in the interactive case), the memory check comes first: whenever the
solution's max RSS exceeds the memory limit the verdict is
RUNERROR_MEMORY, independently of CPU time, wall-clock time, exit signal
and exit code; in particular a run exceeding both memory and CPU limits
is RUNERROR_MEMORY, not TIMEOUT. -/
theorem c3_memory_check_first
    (memory_limit_mib : ℤ) (time_limit_sec : ℚ)
    (solution interactor : Process) (is_generation : Bool)
    (sandbox_output_file : String) (jm : Option String)
    (hmem : solution.max_rss_kib > memory_limit_mib * 1024)
    (hint1 : interactor.is_timedout = false)
    (hint2 : interactor.is_signaled_exit = false) :
    (batchRunSolutionResult is_generation false sandbox_output_file
        memory_limit_mib time_limit_sec solution).verdict
      = EvaluationOutcome.RUNERROR_MEMORY ∧
    (interactorRunSolutionResult interactor memory_limit_mib time_limit_sec
        solution jm).verdict = EvaluationOutcome.RUNERROR_MEMORY := by
  constructor
  · unfold batchRunSolutionResult
    simp only [Bool.false_eq_true, if_false]
    unfold is_solution_abormal_exit
    rw [if_pos hmem]
  · unfold interactorRunSolutionResult
    rw [if_neg (by simp [hint1]), if_neg (by simp [hint2])]
    have hfst : (is_solution_abormal_exit memory_limit_mib time_limit_sec
        solution (EvaluationResult.fill_from_solution_process
          { verdict := EvaluationOutcome.RUN_SUCCESS, output_file := none }
          solution)).1 = true := by
      unfold is_solution_abormal_exit
      rw [if_pos hmem]
    simp only [hfst, if_true]
    unfold is_solution_abormal_exit
    rw [if_pos hmem]

/-- C3 witness: a solution exceeding both the 256 MiB memory limit
(300000 KiB of RSS) and the 1 s CPU limit (2 s of CPU) is reported as
RUNERROR_MEMORY in both modes. -/
theorem c3_witness :
    (batchRunSolutionResult true false "out" 256 1
        { time_limit_sec := 1, cpu_time_sec := 2, wall_clock_time_sec := 2,
          max_rss_kib := 300000, status := 0 }).verdict
      = EvaluationOutcome.RUNERROR_MEMORY ∧
    (interactorRunSolutionResult
        { time_limit_sec := 10, cpu_time_sec := 0, wall_clock_time_sec := 0,
          max_rss_kib := 0, status := 0 } 256 1
        { time_limit_sec := 1, cpu_time_sec := 2, wall_clock_time_sec := 2,
          max_rss_kib := 300000, status := 0 } none).verdict
      = EvaluationOutcome.RUNERROR_MEMORY :=
  c3_memory_check_first 256 1
    { time_limit_sec := 1, cpu_time_sec := 2, wall_clock_time_sec := 2,
      max_rss_kib := 300000, status := 0 }
    { time_limit_sec := 10, cpu_time_sec := 0, wall_clock_time_sec := 0,
      max_rss_kib := 0, status := 0 }
    true "out" none (by decide) (by decide) (by decide)

/-- C4: interactive verdict priority.  If the interactor timed out the
verdict is CHECKER_TIMEDOUT; else if it was signalled, CHECKER_CRASHED —
in both cases whatever the solution did.  Only with a healthy interactor
is the solution evaluated, and when it exited normally the interactor
exit code decides: 42 gives ACCEPTED, anything else gives WRONG with the
first line of judgemessage.txt (when present) as the reason. -/
theorem c4_interactive_priority
    (memory_limit_mib : ℤ) (time_limit_sec : ℚ)
    (solution interactor : Process) (jm : Option String) :
    (interactor.is_timedout = true →
       (interactorRunSolutionResult interactor memory_limit_mib
         time_limit_sec solution jm).verdict
         = EvaluationOutcome.CHECKER_TIMEDOUT) ∧
    (interactor.is_timedout = false → interactor.is_signaled_exit = true →
       (interactorRunSolutionResult interactor memory_limit_mib
         time_limit_sec solution jm).verdict
         = EvaluationOutcome.CHECKER_CRASHED) ∧
    (interactor.is_timedout = false → interactor.is_signaled_exit = false →
     solutionNormalExit memory_limit_mib time_limit_sec solution →
       ((interactor.exit_code = 42 →
           (interactorRunSolutionResult interactor memory_limit_mib
             time_limit_sec solution jm).verdict
             = EvaluationOutcome.ACCEPTED) ∧
        (interactor.exit_code ≠ 42 →
           (interactorRunSolutionResult interactor memory_limit_mib
             time_limit_sec solution jm).verdict
             = EvaluationOutcome.WRONG ∧
           ∀ line : String, jm = some line →
             (interactorRunSolutionResult interactor memory_limit_mib
               time_limit_sec solution jm).checker_reason = line))) := by
  refine ⟨?_, ?_, ?_⟩
  · intro h
    unfold interactorRunSolutionResult
    rw [if_pos h]
  · intro h1 h2
    unfold interactorRunSolutionResult
    rw [if_neg (by simp [h1]), if_pos h2]
  · intro h1 h2 hnorm
    have hfst : (is_solution_abormal_exit memory_limit_mib time_limit_sec
        solution (EvaluationResult.fill_from_solution_process
          { verdict := EvaluationOutcome.RUN_SUCCESS, output_file := none }
          solution)).1 = false := by
      rw [abnormal_fst_congr memory_limit_mib time_limit_sec solution _ {}]
      exact hnorm
    constructor
    · intro h42
      unfold interactorRunSolutionResult
      rw [if_neg (by simp [h1]), if_neg (by simp [h2])]
      simp only [hfst, Bool.false_eq_true, if_false, if_pos h42]
    · intro h42
      constructor
      · unfold interactorRunSolutionResult
        rw [if_neg (by simp [h1]), if_neg (by simp [h2])]
        simp only [hfst, Bool.false_eq_true, if_false, if_neg h42]
        cases jm <;> rfl
      · intro line hline
        subst hline
        unfold interactorRunSolutionResult
        rw [if_neg (by simp [h1]), if_neg (by simp [h2])]
        simp only [hfst, Bool.false_eq_true, if_false, if_neg h42]

/-- C4 witness: a healthy interactor exiting 43 against a clean solution
run gives WRONG with the judge message as reason; the same interactor
exiting 42 gives ACCEPTED; a timed-out interactor gives
CHECKER_TIMEDOUT. -/
theorem c4_witness :
    (interactorRunSolutionResult
        { time_limit_sec := 10, cpu_time_sec := 0, wall_clock_time_sec := 0,
          max_rss_kib := 0, status := 43 * 256 } 256 1
        { time_limit_sec := 1, cpu_time_sec := 0, wall_clock_time_sec := 0,
          max_rss_kib := 0, status := 0 }
        (some "mismatch at query 5")).verdict = EvaluationOutcome.WRONG ∧
    (interactorRunSolutionResult
        { time_limit_sec := 10, cpu_time_sec := 0, wall_clock_time_sec := 0,
          max_rss_kib := 0, status := 43 * 256 } 256 1
        { time_limit_sec := 1, cpu_time_sec := 0, wall_clock_time_sec := 0,
          max_rss_kib := 0, status := 0 }
        (some "mismatch at query 5")).checker_reason
      = "mismatch at query 5" ∧
    (interactorRunSolutionResult
        { time_limit_sec := 10, cpu_time_sec := 0, wall_clock_time_sec := 0,
          max_rss_kib := 0, status := 42 * 256 } 256 1
        { time_limit_sec := 1, cpu_time_sec := 0, wall_clock_time_sec := 0,
          max_rss_kib := 0, status := 0 } none).verdict
      = EvaluationOutcome.ACCEPTED ∧
    (interactorRunSolutionResult
        { time_limit_sec := 10, cpu_time_sec := 20, wall_clock_time_sec := 0,
          max_rss_kib := 0, status := 0 } 256 1
        { time_limit_sec := 1, cpu_time_sec := 0, wall_clock_time_sec := 0,
          max_rss_kib := 0, status := 0 } none).verdict
      = EvaluationOutcome.CHECKER_TIMEDOUT := by
  refine ⟨?_, ?_, ?_, ?_⟩
  · exact (((c4_interactive_priority 256 1
      { time_limit_sec := 1, cpu_time_sec := 0, wall_clock_time_sec := 0,
        max_rss_kib := 0, status := 0 }
      { time_limit_sec := 10, cpu_time_sec := 0, wall_clock_time_sec := 0,
        max_rss_kib := 0, status := 43 * 256 }
      (some "mismatch at query 5")).2.2 (by decide) (by decide)
      (by unfold solutionNormalExit; decide)).2 (by decide)).1
  · exact (((c4_interactive_priority 256 1
      { time_limit_sec := 1, cpu_time_sec := 0, wall_clock_time_sec := 0,
        max_rss_kib := 0, status := 0 }
      { time_limit_sec := 10, cpu_time_sec := 0, wall_clock_time_sec := 0,
        max_rss_kib := 0, status := 43 * 256 }
      (some "mismatch at query 5")).2.2 (by decide) (by decide)
      (by unfold solutionNormalExit; decide)).2 (by decide)).2 "mismatch at query 5" rfl
  · exact ((c4_interactive_priority 256 1
      { time_limit_sec := 1, cpu_time_sec := 0, wall_clock_time_sec := 0,
        max_rss_kib := 0, status := 0 }
      { time_limit_sec := 10, cpu_time_sec := 0, wall_clock_time_sec := 0,
        max_rss_kib := 0, status := 42 * 256 } none).2.2 (by decide)
      (by decide) (by unfold solutionNormalExit; decide)).1 (by decide)
  · exact (c4_interactive_priority 256 1
      { time_limit_sec := 1, cpu_time_sec := 0, wall_clock_time_sec := 0,
        max_rss_kib := 0, status := 0 }
      { time_limit_sec := 10, cpu_time_sec := 20, wall_clock_time_sec := 0,
        max_rss_kib := 0, status := 0 } none).1 (by decide)

/-! ## ICPC checker stage (claims C9 and C10) -/

/-- ICPCCheckerStep.run_checker, src/internal/steps/checker/icpc.py lines
127-197.  If the record's verdict is not RUN_SUCCESS the function only
sets checker_run to False and returns; otherwise it launches the checker
process, reads the stripped first line of judgemessage.txt from the
feedback directory into checker_reason when that file exists, and then
resolves: checker timeout gives CHECKER_TIMEDOUT, checker signal gives
CHECKER_CRASHED, exit code 42 gives ACCEPTED, any other exit code gives
WRONG — downgraded to NO_OUTPUT when the record's output_file is None or
has size zero.  The second component records whether a checker process
was launched; outputFileSize is os.path.getsize. -/
def runChecker (evaluation_record : EvaluationResult)
    (checker_process : Process)
    (judgemessageFirstLine : Option String)
    (outputFileSize : String → ℕ) : EvaluationResult × Bool :=
  if evaluation_record.verdict ≠ EvaluationOutcome.RUN_SUCCESS then
    ({ evaluation_record with checker_run := false }, false)
  else
    let rec1 :=
      match judgemessageFirstLine with
      | some line => { evaluation_record with checker_reason := line }
      | none => evaluation_record
    if checker_process.is_timedout then
      ({ rec1 with verdict := EvaluationOutcome.CHECKER_TIMEDOUT }, true)
    else if checker_process.is_signaled_exit then
      ({ rec1 with verdict := EvaluationOutcome.CHECKER_CRASHED }, true)
    else if checker_process.exit_code = 42 then
      ({ rec1 with verdict := EvaluationOutcome.ACCEPTED }, true)
    else if rec1.output_file = none ∨
            outputFileSize (rec1.output_file.getD "") = 0 then
      ({ rec1 with verdict := EvaluationOutcome.NO_OUTPUT }, true)
    else
      ({ rec1 with verdict := EvaluationOutcome.WRONG }, true)

/-- C9: on a record whose verdict is not RUN_SUCCESS, run_checker launches
no checker process and returns the record unchanged except for setting
checker_run to False (verdict, timing, memory, exit data, output_file and
reason all keep their values). -/
theorem c9_checker_noop_on_failed (evaluation_record : EvaluationResult)
    (checker_process : Process) (jm : Option String)
    (outputFileSize : String → ℕ)
    (h : evaluation_record.verdict ≠ EvaluationOutcome.RUN_SUCCESS) :
    runChecker evaluation_record checker_process jm outputFileSize
      = ({ evaluation_record with checker_run := false }, false) := by
  unfold runChecker
  rw [if_pos h]

/-- C9 witness: a TIMEOUT record is returned with only checker_run
cleared, and no checker process is launched. -/
theorem c9_witness :
    runChecker
      { verdict := EvaluationOutcome.TIMEOUT,
        solution_cpu_time_sec := 3, solution_max_memory_kib := 100,
        output_file := some "sol.out", checker_run := true,
        checker_reason := "took too long" }
      { time_limit_sec := 10, cpu_time_sec := 0, wall_clock_time_sec := 0,
        max_rss_kib := 0, status := 42 * 256 }
      none (fun _ => 5)
      = ({ verdict := EvaluationOutcome.TIMEOUT,
           solution_cpu_time_sec := 3, solution_max_memory_kib := 100,
           output_file := some "sol.out", checker_run := false,
           checker_reason := "took too long" }, false) :=
  c9_checker_noop_on_failed _ _ _ _ (by decide)

/-- C10: with a RUN_SUCCESS record and a checker that neither timed out
nor was signalled, exit code 42 gives ACCEPTED regardless of the output
file; any other exit code gives NO_OUTPUT when the output file is absent
or empty and WRONG otherwise. -/
theorem c10_checker_wrong_vs_no_output (evaluation_record : EvaluationResult)
    (checker_process : Process) (jm : Option String)
    (outputFileSize : String → ℕ)
    (hrun : evaluation_record.verdict = EvaluationOutcome.RUN_SUCCESS)
    (hto : checker_process.is_timedout = false)
    (hsig : checker_process.is_signaled_exit = false) :
    (checker_process.exit_code = 42 →
       (runChecker evaluation_record checker_process jm
         outputFileSize).1.verdict = EvaluationOutcome.ACCEPTED) ∧
    (checker_process.exit_code ≠ 42 →
      ((evaluation_record.output_file = none ∨
          outputFileSize (evaluation_record.output_file.getD "") = 0 →
         (runChecker evaluation_record checker_process jm
           outputFileSize).1.verdict = EvaluationOutcome.NO_OUTPUT) ∧
       (evaluation_record.output_file ≠ none →
        outputFileSize (evaluation_record.output_file.getD "") ≠ 0 →
         (runChecker evaluation_record checker_process jm
           outputFileSize).1.verdict = EvaluationOutcome.WRONG))) := by
  have hofile :
      (match jm with
        | some line => { evaluation_record with checker_reason := line }
        | none => evaluation_record).output_file
        = evaluation_record.output_file := by
    cases jm <;> rfl
  constructor
  · intro h42
    unfold runChecker
    rw [if_neg (by simp [hrun]), if_neg (by simp [hto]),
      if_neg (by simp [hsig]), if_pos h42]
  · intro h42
    constructor
    · intro hempty
      unfold runChecker
      rw [if_neg (by simp [hrun]), if_neg (by simp [hto]),
        if_neg (by simp [hsig]), if_neg h42, if_pos (by rw [hofile]; exact hempty)]
    · intro hsome hsize
      unfold runChecker
      rw [if_neg (by simp [hrun]), if_neg (by simp [hto]),
        if_neg (by simp [hsig]), if_neg h42,
        if_neg (by rw [hofile]; simp [hsome, hsize])]

/-- C10 witness: checker exit 43 with a nonempty output file gives WRONG,
with an empty output file gives NO_OUTPUT, and checker exit 42 with an
empty output file still gives ACCEPTED. -/
theorem c10_witness :
    (runChecker { output_file := some "sol.out" }
      { time_limit_sec := 10, cpu_time_sec := 0, wall_clock_time_sec := 0,
        max_rss_kib := 0, status := 43 * 256 }
      (some "wrong answer on token 3") (fun _ => 7)).1.verdict
      = EvaluationOutcome.WRONG ∧
    (runChecker { output_file := some "sol.out" }
      { time_limit_sec := 10, cpu_time_sec := 0, wall_clock_time_sec := 0,
        max_rss_kib := 0, status := 43 * 256 }
      none (fun _ => 0)).1.verdict = EvaluationOutcome.NO_OUTPUT ∧
    (runChecker { output_file := some "sol.out" }
      { time_limit_sec := 10, cpu_time_sec := 0, wall_clock_time_sec := 0,
        max_rss_kib := 0, status := 42 * 256 }
      none (fun _ => 0)).1.verdict = EvaluationOutcome.ACCEPTED := by
  refine ⟨?_, ?_, ?_⟩
  · exact ((c10_checker_wrong_vs_no_output { output_file := some "sol.out" }
      { time_limit_sec := 10, cpu_time_sec := 0, wall_clock_time_sec := 0,
        max_rss_kib := 0, status := 43 * 256 }
      (some "wrong answer on token 3") (fun _ => 7) (by decide) (by decide)
      (by decide)).2 (by decide)).2 (by decide) (by decide)
  · exact ((c10_checker_wrong_vs_no_output { output_file := some "sol.out" }
      { time_limit_sec := 10, cpu_time_sec := 0, wall_clock_time_sec := 0,
        max_rss_kib := 0, status := 43 * 256 }
      none (fun _ => 0) (by decide) (by decide) (by decide)).2
      (by decide)).1 (by simp)
  · exact (c10_checker_wrong_vs_no_output { output_file := some "sol.out" }
      { time_limit_sec := 10, cpu_time_sec := 0, wall_clock_time_sec := 0,
        max_rss_kib := 0, status := 42 * 256 }
      none (fun _ => 0) (by decide) (by decide) (by decide)).1 (by decide)

/-! ## Validation stage (claim C5) -/

/-- ExecutionResult, src/internal/outcome.py lines 115-121. -/
structure ExecutionResult where
  verdict : ExecutionOutcome
  reason : String := ""
deriving DecidableEq, Repr

/-- One validator run as observed after wait_procs: the wait-status
predicates of the validator Process together with the lines of its
captured stderr file (each without its trailing newline; an empty list
for an empty file). -/
structure ValidatorRun where
  is_timedout : Bool
  is_signaled_exit : Bool
  exit_code : ℕ
  stderr_lines : List String
deriving DecidableEq, Repr

/-- The expected validator exit code: 42 under the ICPC judge convention,
0 under any other convention (src/internal/step_validation.py line 43 and
src/internal/steps/validation.py line 41). -/
def expectedExitcode (icpc : Bool) : ℕ := if icpc then 42 else 0

/-- The fixed fallback reason used when the failing validator's stderr is
empty (src/internal/step_validation.py lines 126-130). -/
def validationFallbackReason : String :=
  "Validation failed on validation command: unexpected exitcode"

/-- ValidationStep.run_validator of src/internal/step_validation.py,
lines 50-140: validators run sequentially; the first timed-out, signalled
or wrong-exit-code validator stops the loop, storing TIMEDOUT, CRASHED or
FAILED into input_validation; for FAILED the reason is the last line of
that validator's captured stderr, or a fixed message when the stderr is
empty.  Returns the updated result together with how many validators were
actually executed. -/
def runValidatorLoop (expected : ℕ) (result : GenerationResult) :
    List ValidatorRun → GenerationResult × ℕ
  | [] => ({ result with input_validation := ExecutionOutcome.SUCCESS }, 0)
  | v :: rest =>
    if v.is_timedout then
      ({ result with input_validation := ExecutionOutcome.TIMEDOUT,
                     reason := "Validator command timed-out" }, 1)
    else if v.is_signaled_exit then
      ({ result with input_validation := ExecutionOutcome.CRASHED,
                     reason := "Validator command aborted with signal" }, 1)
    else if v.exit_code ≠ expected then
      ({ result with input_validation := ExecutionOutcome.FAILED,
                     reason :=
                       match v.stderr_lines.getLast? with
                       | some lastline => lastline
                       | none => validationFallbackReason }, 1)
    else
      let r := runValidatorLoop expected result rest
      (r.1, r.2 + 1)

def run_validator (icpc : Bool) (result : GenerationResult)
    (validators : List ValidatorRun) : GenerationResult × ℕ :=
  runValidatorLoop (expectedExitcode icpc) result validators

/-- The two log directories involved in the validation stage:
context.path.logs and context.path.logs_generation (logs/generation), see
src/internal/context/paths.py lines 73-74. -/
inductive LogDir
  | logs
  | logs_generation
deriving DecidableEq, Repr

structure MiniFile where
  dir : LogDir
  name : String
  lines : List String
deriving DecidableEq, Repr

def lookupFile (fs : List MiniFile) (d : LogDir) (n : String) :
    Option (List String) :=
  (fs.find? (fun f => f.dir = d ∧ f.name = n)).map MiniFile.lines

/-- ValidationStep.run_validator of src/internal/steps/validation.py,
lines 43-131.  Each validator's captured stderr file is moved into the
logs/generation directory (lines 93-96).  When validator i exits with an
unexpected code the loop breaks with valid = False, and the code then
opens the same file name under the logs directory itself
(line 120: os.path.join(self.context.path.logs, file_err_name)) — where
the file was never placed — so by the directory mismatch the open raises
FileNotFoundError, the outer handler (line 129) catches it and the stage
returns CRASHED with a file-not-found reason instead of FAILED with the
last stderr line. -/
def runValidatorStepsLoop (expected : ℕ) (code_name : String) (total : ℕ)
    (i : ℕ) (fs : List MiniFile) :
    List ValidatorRun → ExecutionResult
  | [] => { verdict := ExecutionOutcome.SUCCESS }
  | v :: rest =>
    let file_err_name :=
      if total = 1 then code_name ++ ".val.err"
      else code_name ++ ".val." ++ toString i ++ ".err"
    -- shutil.move(sandbox_error_file, logs_generation/file_err_name)
    let fs1 := fs ++ [⟨LogDir.logs_generation, file_err_name, v.stderr_lines⟩]
    if v.is_timedout then
      { verdict := ExecutionOutcome.TIMEDOUT,
        reason := "Validator command timed-out" }
    else if v.is_signaled_exit then
      { verdict := ExecutionOutcome.CRASHED,
        reason := "Validator command aborted with signal" }
    else if v.exit_code ≠ expected then
      -- valid = False; after the loop the code opens
      -- os.path.join(path.logs, file_err_name)
      match lookupFile fs1 LogDir.logs file_err_name with
      | none =>
          -- FileNotFoundError caught by the outer handler at line 129
          { verdict := ExecutionOutcome.CRASHED,
            reason := "File " ++ file_err_name ++ " not found" }
      | some lines =>
          match lines.getLast? with
          | some lastline =>
              { verdict := ExecutionOutcome.FAILED, reason := lastline }
          | none =>
              { verdict := ExecutionOutcome.FAILED,
                reason := validationFallbackReason }
    else
      runValidatorStepsLoop expected code_name total (i + 1) fs1 rest

def runValidatorSteps (icpc : Bool) (code_name : String)
    (validators : List ValidatorRun) : ExecutionResult :=
  runValidatorStepsLoop (expectedExitcode icpc) code_name
    validators.length 1 [] validators

/-- Supporting result: on the older module
(src/internal/step_validation.py) the claim C5 behaviour holds: under the
ICPC convention a first failing validator (non-signalled, non-timed-out
exit code different from 42) stops the loop after itself, input_validation
becomes FAILED and the reason is the last stderr line (or the fixed
fallback for an empty stderr). -/
theorem runValidatorLoop_first_failure (result : GenerationResult)
    (prefixOk : List ValidatorRun) (v : ValidatorRun)
    (rest : List ValidatorRun) (expected : ℕ)
    (hok : ∀ w ∈ prefixOk, w.is_timedout = false ∧
      w.is_signaled_exit = false ∧ w.exit_code = expected)
    (hto : v.is_timedout = false) (hsig : v.is_signaled_exit = false)
    (hcode : v.exit_code ≠ expected) :
    runValidatorLoop expected result (prefixOk ++ v :: rest)
      = ({ result with input_validation := ExecutionOutcome.FAILED,
                       reason :=
                         match v.stderr_lines.getLast? with
                         | some lastline => lastline
                         | none => validationFallbackReason },
         prefixOk.length + 1) := by
  induction prefixOk with
  | nil =>
    simp only [List.nil_append]
    unfold runValidatorLoop
    rw [if_neg (by simp [hto]), if_neg (by simp [hsig]), if_pos hcode]
    simp
  | cons w ws ih =>
    have hw := hok w (by simp)
    have hrest : ∀ u ∈ ws, u.is_timedout = false ∧
        u.is_signaled_exit = false ∧ u.exit_code = expected := by
      intro u hu
      exact hok u (by simp [hu])
    simp only [List.cons_append]
    unfold runValidatorLoop
    rw [if_neg (by simp [hw.1]), if_neg (by simp [hw.2.1]),
      if_neg (by simp [hw.2.2])]
    rw [ih hrest]
    simp [List.length_cons]

/-- C5 (code evaluation at the failing input): under the ICPC convention,
for test 01_ts_1 with two validators of which the first exits 43 with last
stderr line "x out of range", the newer module
src/internal/steps/validation.py returns CRASHED with a file-not-found
reason — because it reopens the stderr log under logs/ although it moved
the file to logs/generation/ — while the older module
src/internal/step_validation.py (in agreement with the claim, the spec
and src/tests/test_gen.py) marks input_validation FAILED with reason
"x out of range" and executes only the first validator. -/
theorem c5_code_divergence :
    runValidatorSteps true "01_ts_1"
      [{ is_timedout := false, is_signaled_exit := false, exit_code := 43,
         stderr_lines := ["line 1: N = 500000", "x out of range"] },
       { is_timedout := false, is_signaled_exit := false, exit_code := 42,
         stderr_lines := [] }]
      = { verdict := ExecutionOutcome.CRASHED,
          reason := "File 01_ts_1.val.1.err not found" } ∧
    run_validator true {}
      [{ is_timedout := false, is_signaled_exit := false, exit_code := 43,
         stderr_lines := ["line 1: N = 500000", "x out of range"] },
       { is_timedout := false, is_signaled_exit := false, exit_code := 42,
         stderr_lines := [] }]
      = ({ input_validation := ExecutionOutcome.FAILED,
           reason := "x out of range" }, 1) := by
  constructor
  · unfold runValidatorSteps runValidatorStepsLoop
    decide
  · unfold run_validator runValidatorLoop
    decide

/-! ## Hash verification (claim C7) -/

/-- Lookup in a filename-to-hash mapping (a Python dict, embedded as an
association list with distinct keys). -/
def dictLookup (d : List (String × String)) (k : String) : Option String :=
  (d.find? (fun p => p.1 = k)).map Prod.snd

def dictKeys (d : List (String × String)) : List String := d.map Prod.fst

/-- Python dict equality: same keys with the same values. -/
def dictEqb (d1 d2 : List (String × String)) : Bool :=
  d1.all (fun p => dictLookup d2 p.1 = some p.2) &&
  d2.all (fun p => dictLookup d1 p.1 = some p.2)

/-- official_testcase_hashes.keys() - testcase_hashes.keys(),
src/tmt.py line 271 / src/internal/commands/gen.py line 263. -/
def missingFiles (official computed : List (String × String)) : List String :=
  (dictKeys official).filter (fun k => ¬ (dictKeys computed).contains k)

/-- testcase_hashes.keys() - official_testcase_hashes.keys(). -/
def extraFiles (official computed : List (String × String)) : List String :=
  (dictKeys computed).filter (fun k => ¬ (dictKeys official).contains k)

/-- Common files whose stored and computed hashes differ. -/
def mismatchedFiles (official computed : List (String × String)) :
    List String :=
  (dictKeys official).filter (fun k =>
    ((dictLookup computed k).isSome ∧
     dictLookup computed k ≠ dictLookup official k : Prop))

def insertSorted (x : String) : List String → List String
  | [] => [x]
  | y :: ys => if x ≤ y then x :: y :: ys else y :: insertSorted x ys

/-- sorted(...) over file names. -/
def sortStrings : List String → List String
  | [] => []
  | x :: xs => insertSorted x (sortStrings xs)

/-- The --verify-hash phase of command_gen, src/tmt.py lines 249-289 and
src/internal/commands/gen.py lines 241-281: the printed lines (headers
plus the file names of each table; the per-file detail text is elided)
and the process exit status.  When the computed mapping equals the stored
one only "Hash matches!" is printed; otherwise the "Hash mismatches:"
table is printed, then "Missing files:" and "Extra files:" tables when
nonempty.  In every case command_gen merely returns (no sys.exit and no
exception), main() in src/tmt.py lines 510-512 returns in turn, and the
interpreter exits with status 0. -/
def verifyHashStep (official computed : List (String × String)) :
    List String × ℕ :=
  if dictEqb official computed then
    (["Hash matches!"], 0)
  else
    (["Hash mismatches:"] ++ sortStrings (mismatchedFiles official computed)
      ++ (if missingFiles official computed ≠ [] then
            "Missing files:" :: sortStrings (missingFiles official computed)
          else [])
      ++ (if extraFiles official computed ≠ [] then
            "Extra files:" :: sortStrings (extraFiles official computed)
          else []),
     0)

/-- C7 counterexample: with a stored hash.json naming file x.in that the
run did not produce, the missing-files discrepancy exists and the table is
printed, but the exit status is 0, contradicting the claimed non-zero
exit. -/
theorem c7_counterexample :
    missingFiles [("x.in", "aa")] [] = ["x.in"] ∧
    (verifyHashStep [("x.in", "aa")] []).1
      = ["Hash mismatches:", "Missing files:", "x.in"] ∧
    (verifyHashStep [("x.in", "aa")] []).2 = 0 := by
  constructor
  · decide
  constructor
  · decide
  · decide

/-- C7 (amended): on any discrepancy (mismatched, missing or extra file)
the corresponding tables are printed, but the process exit status is 0 in
every case; with no discrepancy only "Hash matches!" is printed and the
exit status is likewise 0. -/
theorem c7_verifyHash_tables_exit_zero
    (official computed : List (String × String)) :
    (verifyHashStep official computed).2 = 0 ∧
    (dictEqb official computed = true →
       (verifyHashStep official computed).1 = ["Hash matches!"]) ∧
    (dictEqb official computed = false →
       "Hash mismatches:" ∈ (verifyHashStep official computed).1 ∧
       (missingFiles official computed ≠ [] →
          "Missing files:" ∈ (verifyHashStep official computed).1) ∧
       (extraFiles official computed ≠ [] →
          "Extra files:" ∈ (verifyHashStep official computed).1)) := by
  refine ⟨?_, ?_, ?_⟩
  · unfold verifyHashStep
    split <;> rfl
  · intro h
    unfold verifyHashStep
    rw [if_pos h]
  · intro h
    unfold verifyHashStep
    rw [if_neg (by simp [h])]
    refine ⟨by simp, ?_, ?_⟩
    · intro hm
      rw [if_pos hm]
      simp
    · intro he
      rw [if_pos he]
      simp

/-- C7 amended-claim witness: concrete mappings with one matching file,
one missing file and one extra file. -/
theorem c7_witness :
    (verifyHashStep [("a.in", "h1"), ("b.in", "h2")]
      [("a.in", "h1"), ("c.in", "h3")]).2 = 0 ∧
    "Missing files:" ∈ (verifyHashStep [("a.in", "h1"), ("b.in", "h2")]
      [("a.in", "h1"), ("c.in", "h3")]).1 ∧
    "Extra files:" ∈ (verifyHashStep [("a.in", "h1"), ("b.in", "h2")]
      [("a.in", "h1"), ("c.in", "h3")]).1 := by
  refine ⟨(c7_verifyHash_tables_exit_zero _ _).1, ?_, ?_⟩
  · exact ((c7_verifyHash_tables_exit_zero
      [("a.in", "h1"), ("b.in", "h2")]
      [("a.in", "h1"), ("c.in", "h3")]).2.2 (by decide)).2.1 (by decide)
  · exact ((c7_verifyHash_tables_exit_zero
      [("a.in", "h1"), ("b.in", "h2")]
      [("a.in", "h1"), ("c.in", "h3")]).2.2 (by decide)).2.2 (by decide)

/-! ## Recipe parser: canonical test names (claim C6) -/

/-- Decimal digit characters as produced by Python str(n). -/
def digitChar : ℕ → Char
  | 0 => '0'
  | 1 => '1'
  | 2 => '2'
  | 3 => '3'
  | 4 => '4'
  | 5 => '5'
  | 6 => '6'
  | 7 => '7'
  | 8 => '8'
  | 9 => '9'
  | _ => '*'

def padDigits : ℕ → ℕ → List Char
  | 0, _ => []
  | w + 1, n => digitChar (n / 10 ^ w % 10) :: padDigits w (n % 10 ^ w)

def numDigits (n : ℕ) : ℕ := if n = 0 then 1 else Nat.log 10 n + 1

def pyStr (n : ℕ) : List Char := padDigits (numDigits n) n

def zfill (w : ℕ) (s : List Char) : List Char :=
  List.replicate (w - s.length) '0' ++ s

theorem padDigits_length : ∀ (w n : ℕ), (padDigits w n).length = w := by
  intro w
  induction w with
  | zero => intro n; rfl
  | succ w ih => intro n; simp [padDigits, ih]

theorem pyStr_length (n : ℕ) : (pyStr n).length = numDigits n :=
  padDigits_length _ n

theorem lt_pow_numDigits (n : ℕ) : n < 10 ^ numDigits n := by
  unfold numDigits
  split_ifs with h
  · subst h; norm_num
  · exact Nat.lt_pow_succ_log_self (by norm_num) n

theorem pow_numDigits_le (n : ℕ) (h : n ≠ 0) : 10 ^ (numDigits n - 1) ≤ n := by
  unfold numDigits
  rw [if_neg h]
  simp only [Nat.add_sub_cancel]
  exact Nat.pow_log_le_self 10 h

theorem numDigits_mono {m n : ℕ} (h : m ≤ n) : numDigits m ≤ numDigits n := by
  unfold numDigits
  split_ifs with h1 h2
  · exact le_refl 1
  · exact Nat.succ_le_succ (Nat.zero_le _)
  · omega
  · exact Nat.succ_le_succ (Nat.log_mono_right h)

theorem padDigits_cons_zero (w n : ℕ) (h : n < 10 ^ w) :
    padDigits (w + 1) n = '0' :: padDigits w n := by
  have h1 : n / 10 ^ w = 0 := Nat.div_eq_of_lt h
  have h2 : n % 10 ^ w = n := Nat.mod_eq_of_lt h
  simp [padDigits, h1, h2, digitChar]

theorem padDigits_add (k w n : ℕ) (h : n < 10 ^ w) :
    padDigits (w + k) n = List.replicate k '0' ++ padDigits w n := by
  induction k with
  | zero => simp
  | succ k ih =>
    have hk : n < 10 ^ (w + k) :=
      lt_of_lt_of_le h (Nat.pow_le_pow_right (by norm_num) (by omega))
    have : w + (k + 1) = (w + k) + 1 := by omega
    rw [this, padDigits_cons_zero (w + k) n hk, ih]
    simp [List.replicate_succ]

theorem zfill_pyStr (w n : ℕ) (h : numDigits n ≤ w) :
    zfill w (pyStr n) = padDigits w n := by
  obtain ⟨k, rfl⟩ : ∃ k, w = numDigits n + k := ⟨w - numDigits n, by omega⟩
  unfold zfill pyStr
  rw [padDigits_length, padDigits_add k (numDigits n) n (lt_pow_numDigits n)]
  have hk : numDigits n + k - numDigits n = k := by omega
  rw [hk]

theorem digitChar_lt {d1 d2 : ℕ} (h1 : d1 < d2) (h2 : d2 < 10) :
    digitChar d1 < digitChar d2 := by
  interval_cases d2 <;> interval_cases d1 <;> decide

theorem padDigits_lex :
    ∀ (w a b : ℕ), a < b → b < 10 ^ w →
      List.Lex (· < ·) (padDigits w a) (padDigits w b) := by
  intro w
  induction w with
  | zero =>
    intro a b hab hb
    simp at hb
    omega
  | succ w ih =>
    intro a b hab hb
    have hpow : (0 : ℕ) < 10 ^ w := Nat.pos_pow_of_pos w (by norm_num)
    have hb10 : b < 10 * 10 ^ w := by
      rw [pow_succ] at hb; omega
    have hdb : b / 10 ^ w < 10 := (Nat.div_lt_iff_lt_mul hpow).mpr (by omega)
    have hda : a / 10 ^ w < 10 := (Nat.div_lt_iff_lt_mul hpow).mpr
      (by have : a < b := hab; omega)
    have hma : a / 10 ^ w % 10 = a / 10 ^ w := Nat.mod_eq_of_lt hda
    have hmb : b / 10 ^ w % 10 = b / 10 ^ w := Nat.mod_eq_of_lt hdb
    have hdiv_le : a / 10 ^ w ≤ b / 10 ^ w := Nat.div_le_div_right (le_of_lt hab)
    rcases lt_or_eq_of_le hdiv_le with hlt | heq
    · refine List.Lex.rel ?_
      rw [hma, hmb]
      exact digitChar_lt hlt hdb
    · have hhead : digitChar (a / 10 ^ w % 10) = digitChar (b / 10 ^ w % 10) := by
        rw [hma, hmb, heq]
      simp only [padDigits, hhead]
      refine List.Lex.cons ?_
      refine ih (a % 10 ^ w) (b % 10 ^ w) ?_ (Nat.mod_lt _ hpow)
      have ha' := Nat.div_add_mod a (10 ^ w)
      have hb' := Nat.div_add_mod b (10 ^ w)
      have hprod : 10 ^ w * (a / 10 ^ w) = 10 ^ w * (b / 10 ^ w) := by
        rw [heq]
      omega

theorem lex_append_right (p : List Char) {c d : List Char}
    (h : List.Lex (· < ·) c d) : List.Lex (· < ·) (p ++ c) (p ++ d) := by
  induction p with
  | nil => exact h
  | cons x xs ih => exact List.Lex.cons ih

theorem lex_append_left {a b : List Char}
    (h : List.Lex (· < ·) a b) (hlen : a.length = b.length) :
    ∀ (c d : List Char), List.Lex (· < ·) (a ++ c) (b ++ d) := by
  induction h with
  | nil => simp at hlen
  | rel hr => intro c d; exact List.Lex.rel hr
  | cons h ih =>
    intro c d
    exact List.Lex.cons (ih (by simpa using hlen) c d)


/-- Testset.generate_test_names, src/internal/recipe_parser.py lines
171-186: testcase_index_width = len(str(len(tests))), the testset index is
zero-filled to the given width, and test i (1-based) is named
testset_index_padded _ testset_name _ testcase_index_padded. -/
def generate_test_names (testset_index_width testset_index : ℕ)
    (testset_name : List Char) (numTests : ℕ) : List (List Char) :=
  (List.range' 1 numTests).map (fun i =>
    zfill testset_index_width (pyStr testset_index) ++ ('_' :: testset_name) ++
      ('_' :: zfill (pyStr numTests).length (pyStr i)))

/-- max(testset.testset_index for testset in self.testsets.values()),
src/internal/recipe_parser.py lines 338-340.  A testset is embedded as
(testset_index, testset_name as a character list, number of tests). -/
def maxTestsetIndex : List (ℕ × List Char × ℕ) → ℕ
  | [] => 0
  | p :: rest => max p.1 (maxTestsetIndex rest)

/-- RecipeData.generate_all_test_names
(src/internal/recipe_parser.py lines 329-345) composed with
get_all_test_names (lines 308-327): the testset-index padding width is
len(str(max testset index)), each testset names its tests, and the names
are listed in (testset_index, case_index) order. -/
def generate_all_test_names (ts : List (ℕ × List Char × ℕ)) :
    List (List Char) :=
  (ts.map (fun p =>
    generate_test_names (pyStr (maxTestsetIndex ts)).length p.1 p.2.1
      p.2.2)).flatten

theorem le_maxTestsetIndex :
    ∀ (ts : List (ℕ × List Char × ℕ)), ∀ p ∈ ts, p.1 ≤ maxTestsetIndex ts := by
  intro ts
  induction ts with
  | nil => intro p hp; simp at hp
  | cons q rest ih =>
    intro p hp
    rcases List.mem_cons.mp hp with h | h
    · subst h; exact le_max_left _ _
    · exact le_trans (ih p h) (le_max_right _ _)

theorem range1_pairwise (s n : ℕ) :
    List.Pairwise (· < ·) (List.range' s n) := by
  induction n generalizing s with
  | zero => simp
  | succ n ih =>
    rw [List.range'_succ]
    refine List.Pairwise.cons ?_ (ih (s + 1))
    intro y hy
    have := (List.mem_range'_1.mp hy).1
    omega

theorem generate_all_test_names_pairwise (ts : List (ℕ × List Char × ℕ))
    (hinc : List.Pairwise (fun p q => p.1 < q.1) ts) :
    List.Pairwise (fun a b => List.Lex (· < ·) a b)
      (generate_all_test_names ts) := by
  unfold generate_all_test_names
  rw [List.pairwise_flatten]
  constructor
  · intro l hl
    rw [List.mem_map] at hl
    obtain ⟨p, hpmem, rfl⟩ := hl
    unfold generate_test_names
    rw [List.pairwise_map]
    refine (range1_pairwise 1 p.2.2).imp_of_mem ?_
    intro a b ha hb hab
    have hble : b < 1 + p.2.2 := (List.mem_range'_1.mp hb).2
    apply lex_append_right
    refine List.Lex.cons ?_
    rw [pyStr_length,
      zfill_pyStr _ a (numDigits_mono (by omega : a ≤ p.2.2)),
      zfill_pyStr _ b (numDigits_mono (by omega : b ≤ p.2.2))]
    exact padDigits_lex _ a b hab
      (lt_of_le_of_lt (by omega : b ≤ p.2.2) (lt_pow_numDigits p.2.2))
  · rw [List.pairwise_map]
    refine hinc.imp_of_mem ?_
    intro p q hp hq hpq
    intro x hx y hy
    unfold generate_test_names at hx hy
    rw [List.mem_map] at hx hy
    obtain ⟨i, hi, rfl⟩ := hx
    obtain ⟨j, hj, rfl⟩ := hy
    have hpM : p.1 ≤ maxTestsetIndex ts := le_maxTestsetIndex ts p hp
    have hqM : q.1 ≤ maxTestsetIndex ts := le_maxTestsetIndex ts q hq
    rw [pyStr_length, zfill_pyStr _ p.1 (numDigits_mono hpM),
      zfill_pyStr _ q.1 (numDigits_mono hqM)]
    rw [List.append_assoc, List.append_assoc]
    refine lex_append_left ?_ ?_ _ _
    · exact padDigits_lex _ p.1 q.1 hpq
        (lt_of_le_of_lt hqM (lt_pow_numDigits _))
    · rw [padDigits_length, padDigits_length]


/-- C6: in every parsed recipe (testsets carrying strictly increasing
indices, as assigned by the parser counter), the zero-padding widths are
the decimal digit counts — 10^(width-1) <= max < 10^width for the
testset-index width, and likewise per testset for the case-count width —
and the list of all canonical names in (testset_idx, case_idx) order is
strictly lexicographically sorted. -/
theorem c6_names_sorted (ts : List (ℕ × List Char × ℕ))
    (hinc : List.Pairwise (fun p q => p.1 < q.1) ts) :
    (maxTestsetIndex ts ≠ 0 →
       10 ^ ((pyStr (maxTestsetIndex ts)).length - 1) ≤ maxTestsetIndex ts ∧
       maxTestsetIndex ts < 10 ^ (pyStr (maxTestsetIndex ts)).length) ∧
    (∀ p ∈ ts, p.2.2 ≠ 0 →
       10 ^ ((pyStr p.2.2).length - 1) ≤ p.2.2 ∧
       p.2.2 < 10 ^ (pyStr p.2.2).length) ∧
    List.Pairwise (fun a b => List.Lex (· < ·) a b)
      (generate_all_test_names ts) := by
  refine ⟨?_, ?_, generate_all_test_names_pairwise ts hinc⟩
  · intro h
    rw [pyStr_length]
    exact ⟨pow_numDigits_le _ h, lt_pow_numDigits _⟩
  · intro p _ h
    rw [pyStr_length]
    exact ⟨pow_numDigits_le _ h, lt_pow_numDigits _⟩

/-- C6 witness: a recipe with two testsets of 2 and 11 cases. -/
theorem c6_witness :
    (10 ^ ((pyStr (maxTestsetIndex
        [(1, ['t', 's', 'A'], 2), (2, ['t', 's', 'B'], 11)])).length - 1)
      ≤ maxTestsetIndex
        [(1, ['t', 's', 'A'], 2), (2, ['t', 's', 'B'], 11)] ∧
     maxTestsetIndex [(1, ['t', 's', 'A'], 2), (2, ['t', 's', 'B'], 11)]
      < 10 ^ (pyStr (maxTestsetIndex
          [(1, ['t', 's', 'A'], 2), (2, ['t', 's', 'B'], 11)])).length) ∧
    List.Pairwise (fun a b => List.Lex (· < ·) a b)
      (generate_all_test_names
        [(1, ['t', 's', 'A'], 2), (2, ['t', 's', 'B'], 11)]) := by
  have h := c6_names_sorted
    [(1, ['t', 's', 'A'], 2), (2, ['t', 's', 'B'], 11)]
    (by decide)
  exact ⟨h.1 (by decide), h.2.2⟩

end TMT
